import Mathlib

/-!
Verification of the promotion (publicity) module of the mascotas_node repository.

Shallow embedding of:
- `src/src/promotion/routes.ts` — route handlers `list`, `create`, `read`,
  `remove`, `updatePromotionPicture`, `validateUpdatePromotionPicture`, and the
  routing table declared in `initModule`;
- `src/unnamed/part_000` — the mongoose `PublicitySchema` (defaults, trim
  setters, required validators).

External collaborators (express, the session middleware `onlyLoggedIn`, the
image store `imageService.create`, the identity service `user.hasPermission`,
and the mongoose persistence engine) are modelled as oracle parameters; the
semantics the mongoose engine gives to the schema declaration (`default`,
`trim`, `required`) is embedded directly, driven by the declaration in
`src/unnamed/part_000`.
-/

/-- One `{path, message}` pair of a validation report
(`error.ValidationErrorMessage.messages` element). -/
structure ValidationEntry where
  path : String
  message : String
deriving DecidableEq

/-- `error.ValidationErrorMessage`: an ordered report of field errors. -/
structure ValidationErrorMessage where
  messages : List ValidationEntry
deriving DecidableEq

/-! ## JavaScript string trimming (mongoose `trim: true` applies `String.prototype.trim`) -/

/-- Whitespace characters removed by JavaScript string trimming
(the ASCII subset: space, tab, line feed, carriage return, vertical tab,
form feed). -/
def isJsWhitespace (c : Char) : Bool :=
  c = ' ' || c = '\t' || c = '\n' || c = '\r' || c = '\x0b' || c = '\x0c'

/-- Trim on the character list: drop whitespace from the front, then from the
back (implemented by reversing). -/
def jsTrimList (l : List Char) : List Char :=
  ((l.dropWhile isJsWhitespace).reverse.dropWhile isJsWhitespace).reverse

/-- JavaScript `s.trim()`. -/
def jsTrim (s : String) : String :=
  String.mk (jsTrimList s.data)

/-- A string has no leading and no trailing JS whitespace. -/
def noEdgeWhitespace (s : String) : Prop :=
  (∀ c, s.data.head? = some c → isJsWhitespace c = false) ∧
  (∀ c, s.data.getLast? = some c → isJsWhitespace c = false)

/-! ## The mongoose `PublicitySchema` of `src/unnamed/part_000` -/

/-- A request body / raw document before the schema is applied: every path may
be absent. `owner` is an ObjectId, modelled as an opaque string. -/
structure PublicityInput where
  title : Option String
  description : Option String
  redirectLink : Option String
  imageId : Option String
  owner : Option String
  enabled : Option Bool
deriving DecidableEq

/-- A document after defaults and setters: the shape of `IPublicity`
(without the store-assigned `id`). -/
structure PublicityDoc where
  title : String
  description : String
  redirectLink : String
  imageId : String
  owner : Option String
  enabled : Bool
deriving DecidableEq

/-- A string path of `PublicitySchema` with `default: ""` and `trim: true`:
a provided value is trimmed by the setter, an absent value gets the default
`""`. -/
def applyStringPath (v : Option String) : String :=
  match v with
  | some s => jsTrim s
  | none => ""

/-- Apply the schema's defaults and setters to a raw input, producing the
document mongoose will validate: `title`, `description`, `redirectLink`,
`imageId` are trimmed strings defaulting to `""`; `owner` has no default;
`enabled` defaults to `true`. -/
def buildPublicityDoc (input : PublicityInput) : PublicityDoc :=
  { title := applyStringPath input.title
    description := applyStringPath input.description
    redirectLink := applyStringPath input.redirectLink
    imageId := applyStringPath input.imageId
    owner := input.owner
    enabled := input.enabled.getD true }

/-- The `required` validators of `PublicitySchema`, in schema path order.
For a mongoose String path, `required` demands a present, non-empty value
(`value.length > 0`); for the ObjectId path `owner` it demands presence. -/
def publicityValidationErrors (d : PublicityDoc) : List ValidationEntry :=
  (if 0 < d.title.length then [] else
    [{ path := "title", message := "Nombre no puede estar vacío." }]) ++
  (if 0 < d.description.length then [] else
    [{ path := "description",
       message := "La desripcion de la publicidad no puede estar vacia." }]) ++
  (if 0 < d.redirectLink.length then [] else
    [{ path := "redirectLink",
       message := "Toda publicidad debe tener un link que redireccione a la publicidad." }]) ++
  (if 0 < d.imageId.length then [] else
    [{ path := "imageId",
       message := "Toda publicidad debe tener una image que la represente." }]) ++
  (if d.owner.isSome then [] else
    [{ path := "owner", message := "Toda publicidad debe tener una dueno" }])

/-- Saving a document through `PublicitySchema`: apply defaults and setters,
run the validators; reject with the error report when any validator fails,
otherwise persist the built document. -/
def publicitySave (input : PublicityInput) : Except (List ValidationEntry) PublicityDoc :=
  let d := buildPublicityDoc input
  if publicityValidationErrors d = [] then Except.ok d
  else Except.error (publicityValidationErrors d)

deriving instance DecidableEq for Except

/-! ## Trim lemmas -/

theorem dropWhile_head_not (p : Char → Bool) (l : List Char) :
    ∀ c, (l.dropWhile p).head? = some c → p c = false := by
  intro c hc
  have h := List.head?_dropWhile_not p l
  rw [hc] at h
  exact h

theorem dropWhile_getLast?_of_ne_nil (p : Char → Bool) :
    ∀ l : List Char, l.dropWhile p ≠ [] → (l.dropWhile p).getLast? = l.getLast? := by
  intro l
  induction l with
  | nil => intro h; simp [List.dropWhile] at h
  | cons a t ih =>
    intro h
    by_cases hp : p a
    · rw [List.dropWhile_cons_of_pos hp] at h ⊢
      have ht : t ≠ [] := by
        intro he
        subst he
        simp [List.dropWhile] at h
      rw [ih h]
      cases t with
      | nil => exact absurd rfl ht
      | cons b t2 => rw [List.getLast?_cons_cons]
    · rw [List.dropWhile_cons_of_neg hp]

theorem jsTrimList_head_not_ws (l : List Char) :
    ∀ c, (jsTrimList l).head? = some c → isJsWhitespace c = false := by
  intro c hc
  unfold jsTrimList at hc
  rw [List.head?_reverse] at hc
  set m := l.dropWhile isJsWhitespace with hm
  set n := m.reverse.dropWhile isJsWhitespace with hn
  have hne : n ≠ [] := by
    intro he
    rw [he] at hc
    simp at hc
  rw [dropWhile_getLast?_of_ne_nil isJsWhitespace m.reverse hne] at hc
  rw [List.getLast?_reverse] at hc
  exact dropWhile_head_not isJsWhitespace l c hc

theorem jsTrimList_getLast_not_ws (l : List Char) :
    ∀ c, (jsTrimList l).getLast? = some c → isJsWhitespace c = false := by
  intro c hc
  unfold jsTrimList at hc
  rw [List.getLast?_reverse] at hc
  exact dropWhile_head_not isJsWhitespace _ c hc

theorem jsTrim_noEdgeWhitespace (s : String) : noEdgeWhitespace (jsTrim s) := by
  constructor
  · intro c hc
    exact jsTrimList_head_not_ws s.data c hc
  · intro c hc
    exact jsTrimList_getLast_not_ws s.data c hc

/-! ## Stored records and the promotion service -/

/-- A persisted promotion as returned by the store: the document fields plus
the store-assigned `id` and a resolved `owner`. -/
structure StoredPromotion where
  id : String
  title : String
  description : String
  redirectLink : String
  imageId : String
  owner : String
  enabled : Bool
deriving DecidableEq

/-- Modelled from the spec: `service.list` of `src/promotion/service.ts` is not
under `src/`. The spec says it returns all promotions with `enabled=true`
(a store query filtered on the enabled flag). -/
def serviceList (store : List StoredPromotion) : List StoredPromotion :=
  store.filter (fun r => r.enabled)

/-- Modelled from the spec: `service.create` of `src/promotion/service.ts` is
not under `src/`. The spec says it validates the required fields of the input
and persists a new Promotion owned by the caller; persistence goes through the
`PublicitySchema` store of `src/unnamed/part_000`, whose defaults, trim setters
and required validators are embedded in `publicitySave`. -/
def serviceCreate (uid : String) (body : PublicityInput) :
    Except (List ValidationEntry) PublicityDoc :=
  publicitySave { body with owner := some uid }

/-! ## Route handlers of `src/src/promotion/routes.ts` -/

/-- Observable collaborator calls made by a route handler, in order. -/
inductive Event
  | permissionCheck (userId role : String)
  | serviceCreateCall (body : PublicityInput)
  | serviceInvalidateCall (promotionId : String)
  | serviceReadCall (promotionId : String)
  | serviceListCall
  | imageStoreCreate (body : String)
  | validateImageId (imageId : String)
deriving DecidableEq

/-- Events that mutate the promotion store (`service.create` /
`service.invalidate`). -/
def isMutationEvent : Event → Bool
  | Event.serviceCreateCall _ => true
  | Event.serviceInvalidateCall _ => true
  | _ => false

/-- Every mutation event in a trace is strictly preceded by a permission
check. -/
def mutationAfterPerm (tr : List Event) : Prop :=
  ∀ k e, tr.get? k = some e → isMutationEvent e = true →
    ∃ j u r, j < k ∧ tr.get? j = some (Event.permissionCheck u r)

/-- Error outcomes a handler can propagate. -/
inductive RouteErr
  | permissionError
  | validationError (messages : List ValidationEntry)
  | notFound
deriving DecidableEq

/-- The `{id}` response body of `create` and of the picture route. -/
structure IdResponse where
  id : String
deriving DecidableEq

/-- An element of the `list` response and the `read` response body: exactly
the five exposed fields. -/
structure PromotionView where
  id : String
  title : String
  description : String
  redirectLink : String
  imageId : String
deriving DecidableEq

/-- The projection applied to each item in the `list` handler
(`routes.ts` lines 52-60). -/
def listProjection (item : StoredPromotion) : PromotionView :=
  { id := item.id
    title := item.title
    description := item.description
    redirectLink := item.redirectLink
    imageId := item.imageId }

/-- The `list` handler: calls `service.list` (result supplied as the oracle
`svcResult`) and responds with the per-item projection. -/
def listRoute (svcResult : List StoredPromotion) :
    List Event × List PromotionView :=
  ([Event.serviceListCall], svcResult.map listProjection)

/-- The `create` handler (`routes.ts` lines 91-99): awaits
`user.hasPermission(req.user.user_id, "admin")` (outcome `permOk`), and only
if it succeeds awaits `service.create(req.body)` (outcome `svc`); a rejected
permission check propagates before the service is ever called. -/
def createRoute (permOk : Bool) (svc : Except (List ValidationEntry) String)
    (uid : String) (body : PublicityInput) :
    List Event × Except RouteErr IdResponse :=
  if permOk then
    match svc with
    | Except.ok rid =>
        ([Event.permissionCheck uid "admin", Event.serviceCreateCall body],
         Except.ok { id := rid })
    | Except.error msgs =>
        ([Event.permissionCheck uid "admin", Event.serviceCreateCall body],
         Except.error (RouteErr.validationError msgs))
  else
    ([Event.permissionCheck uid "admin"], Except.error RouteErr.permissionError)

/-- The `read` handler (`routes.ts` lines 120-129): calls
`service.read(req.params.promotionId)` (outcome `svc`) with no permission
check, and responds with the five exposed fields. -/
def readRoute (svc : Except RouteErr StoredPromotion) (promotionId : String) :
    List Event × Except RouteErr PromotionView :=
  ([Event.serviceReadCall promotionId],
   match svc with
   | Except.ok r =>
       Except.ok { id := r.id
                   title := r.title
                   description := r.description
                   redirectLink := r.redirectLink
                   imageId := r.imageId }
   | Except.error e => Except.error e)

/-- The `remove` handler (`routes.ts` lines 143-147): awaits the admin
permission check (outcome `permOk`), then awaits
`service.invalidate(req.params.promotionId)` (outcome `inv`). -/
def removeRoute (permOk : Bool) (inv : Except RouteErr Unit)
    (uid promotionId : String) : List Event × Except RouteErr Unit :=
  if permOk then
    ([Event.permissionCheck uid "admin", Event.serviceInvalidateCall promotionId],
     match inv with
     | Except.ok _ => Except.ok ()
     | Except.error e => Except.error e)
  else
    ([Event.permissionCheck uid "admin"], Except.error RouteErr.permissionError)

/-- `validateUpdatePromotionPicture` (`routes.ts` lines 182-196): pushes one
`{path: "image", ...}` entry when `!imageId || imageId.length <= 0`
(for a string, `!imageId` holds exactly when it is `""`), then rejects when the
report is non-empty. -/
def validateUpdatePromotionPicture (imageId : String) :
    Except ValidationErrorMessage Unit :=
  let result : ValidationErrorMessage := { messages := [] }
  let result :=
    if imageId = "" ∨ imageId.length ≤ 0 then
      { messages := result.messages ++
          [{ path := "image", message := "Imagen inválida." }] }
    else result
  if 0 < result.messages.length then Except.error result
  else Except.ok ()

/-- The `updatePromotionPicture` handler (`routes.ts` lines 170-180): awaits
`imageService.create(req.body)` first (the image store returns identifier
`imageStoreId`), then validates that identifier, then responds `{id}`. No
promotion-service call occurs. -/
def updatePromotionPictureRoute (imageStoreId : String) (body : String) :
    List Event × Except RouteErr IdResponse :=
  ([Event.imageStoreCreate body, Event.validateImageId imageStoreId],
   match validateUpdatePromotionPicture imageStoreId with
   | Except.error m => Except.error (RouteErr.validationError m.messages)
   | Except.ok _ => Except.ok { id := imageStoreId })

/-! ## The routing table of `initModule` (`routes.ts` lines 14-27) -/

/-- One element of a route's middleware chain. -/
inductive RouteStep
  | onlyLoggedIn
  | handler (name : String)
deriving DecidableEq

/-- The routes registered by `initModule`, each with its middleware chain in
registration order. -/
def promotionRoutes : List (String × String × List RouteStep) :=
  [ ("/v1/promotion", "get", [RouteStep.onlyLoggedIn, RouteStep.handler "list"]),
    ("/v1/promotion", "post", [RouteStep.onlyLoggedIn, RouteStep.handler "create"]),
    ("/v1/promotion/:promotionId", "get", [RouteStep.handler "read"]),
    ("/v1/promotion/:promotionId", "delete",
      [RouteStep.onlyLoggedIn, RouteStep.handler "remove"]),
    ("/v1/promotion/picture", "post",
      [RouteStep.onlyLoggedIn, RouteStep.handler "updatePromotionPicture"]) ]

/-! ## Helper lemmas -/

theorem mutationAfterPerm_single (u r : String) :
    mutationAfterPerm [Event.permissionCheck u r] := by
  intro k e hk hm
  match k with
  | 0 =>
    simp only [List.get?] at hk
    cases hk
    simp [isMutationEvent] at hm
  | k + 1 =>
    simp [List.get?] at hk

theorem mutationAfterPerm_pair (u r : String) (e : Event) :
    mutationAfterPerm [Event.permissionCheck u r, e] := by
  intro k e2 hk hm
  match k with
  | 0 =>
    simp only [List.get?] at hk
    cases hk
    simp [isMutationEvent] at hm
  | 1 =>
    exact ⟨0, u, r, by omega, rfl⟩
  | k + 2 =>
    simp [List.get?] at hk

theorem publicitySave_ok (input : PublicityInput) (d : PublicityDoc)
    (h : publicitySave input = Except.ok d) :
    d = buildPublicityDoc input ∧
      publicityValidationErrors (buildPublicityDoc input) = [] := by
  simp only [publicitySave] at h
  split at h
  · exact ⟨(Except.ok.inj h).symm, by assumption⟩
  · exact absurd h (by simp)

theorem publicityValidationErrors_eq_nil (d : PublicityDoc) :
    publicityValidationErrors d = [] ↔
      (0 < d.title.length ∧ 0 < d.description.length ∧
       0 < d.redirectLink.length ∧ 0 < d.imageId.length ∧
       d.owner.isSome = true) := by
  unfold publicityValidationErrors
  split_ifs <;> simp_all

/-! ## Claims -/

/-- C1: for every `create` and every `invalidate` (`remove`) invocation, the
"admin" permission check precedes any store mutation in the handler's
collaborator-call trace, and when the check fails the service mutation is
never invoked and a PermissionError propagates. -/
theorem mutation_requires_prior_admin_check :
    ∀ (permOk : Bool) (svc : Except (List ValidationEntry) String)
      (inv : Except RouteErr Unit) (uid : String) (body : PublicityInput)
      (promotionId : String),
      (permOk = false →
        ((createRoute permOk svc uid body).1.filter isMutationEvent = [] ∧
         (createRoute permOk svc uid body).2 = Except.error RouteErr.permissionError) ∧
        ((removeRoute permOk inv uid promotionId).1.filter isMutationEvent = [] ∧
         (removeRoute permOk inv uid promotionId).2 = Except.error RouteErr.permissionError)) ∧
      mutationAfterPerm (createRoute permOk svc uid body).1 ∧
      mutationAfterPerm (removeRoute permOk inv uid promotionId).1 := by
  intro permOk svc inv uid body promotionId
  constructor
  · intro hp
    subst hp
    refine ⟨⟨?_, ?_⟩, ?_, ?_⟩ <;> simp [createRoute, removeRoute, isMutationEvent]
  · constructor
    · cases permOk
      · simpa [createRoute] using mutationAfterPerm_single uid "admin"
      · cases svc with
        | ok rid =>
          simpa [createRoute] using
            mutationAfterPerm_pair uid "admin" (Event.serviceCreateCall body)
        | error m =>
          simpa [createRoute] using
            mutationAfterPerm_pair uid "admin" (Event.serviceCreateCall body)
    · cases permOk
      · simpa [removeRoute] using mutationAfterPerm_single uid "admin"
      · simpa [removeRoute] using
          mutationAfterPerm_pair uid "admin" (Event.serviceInvalidateCall promotionId)

/-- An arbitrary request body used to instantiate route theorems. -/
def bodyW : PublicityInput :=
  { title := none, description := none, redirectLink := none,
    imageId := none, owner := none, enabled := none }

/-- Witness for C1 at concrete inputs: a failed check yields no mutation
event, and a successful run's trace has every mutation after the check. -/
theorem mutation_requires_prior_admin_check_witness :
    (createRoute false (Except.ok "x") "u1" bodyW).1.filter isMutationEvent = [] ∧
    mutationAfterPerm (createRoute true (Except.ok "x") "u1" bodyW).1 := by
  have h1 := mutation_requires_prior_admin_check false (Except.ok "x")
    (Except.ok ()) "u1" bodyW "p1"
  have h2 := mutation_requires_prior_admin_check true (Except.ok "x")
    (Except.ok ()) "u1" bodyW "p1"
  exact ⟨(h1.1 rfl).1.1, h2.2.1⟩

theorem string_length_eq_zero (s : String) : s.length = 0 ↔ s = "" := by
  constructor
  · intro h
    cases s with
    | mk data =>
      have hd : data = [] := List.length_eq_zero.mp h
      subst hd
      rfl
  · intro h
    rw [h]
    rfl

theorem validateUpdatePromotionPicture_empty :
    validateUpdatePromotionPicture "" =
      Except.error { messages := [{ path := "image", message := "Imagen inválida." }] } := by
  rfl

theorem validateUpdatePromotionPicture_nonempty (s : String) (h : 0 < s.length) :
    validateUpdatePromotionPicture s = Except.ok () := by
  have hne : ¬ (s = "" ∨ s.length ≤ 0) := by
    intro hc
    rcases hc with hc | hc
    · subst hc
      exact absurd h (by decide)
    · omega
  simp only [validateUpdatePromotionPicture]
  rw [if_neg hne]
  rfl

/-- C2: the image-attach operation fails with a ValidationError exactly when
the identifier returned by the image store is empty, and then the report has
exactly one entry `{path: "image", message: <localized message>}`; every
non-empty identifier makes the route respond `{id}` with that identifier. -/
theorem image_attach_validation_iff_empty :
    ∀ (imageId body : String),
      ((∃ m, validateUpdatePromotionPicture imageId = Except.error m) ↔
        imageId.length = 0) ∧
      (imageId.length = 0 →
        validateUpdatePromotionPicture imageId =
          Except.error { messages := [{ path := "image", message := "Imagen inválida." }] }) ∧
      (0 < imageId.length →
        validateUpdatePromotionPicture imageId = Except.ok () ∧
        (updatePromotionPictureRoute imageId body).2 = Except.ok { id := imageId }) := by
  intro s body
  refine ⟨⟨?_, ?_⟩, ?_, ?_⟩
  · rintro ⟨m, hm⟩
    by_contra hz
    have hok := validateUpdatePromotionPicture_nonempty s (Nat.pos_of_ne_zero hz)
    rw [hok] at hm
    cases hm
  · intro hz
    have he := (string_length_eq_zero s).mp hz
    subst he
    exact ⟨_, validateUpdatePromotionPicture_empty⟩
  · intro hz
    have he := (string_length_eq_zero s).mp hz
    subst he
    exact validateUpdatePromotionPicture_empty
  · intro hp
    refine ⟨validateUpdatePromotionPicture_nonempty s hp, ?_⟩
    simp [updatePromotionPictureRoute, validateUpdatePromotionPicture_nonempty s hp]

/-- Witness for C2: the empty identifier is rejected with the single-entry
report, and a concrete non-empty identifier is returned as `{id}`. -/
theorem image_attach_validation_iff_empty_witness :
    validateUpdatePromotionPicture "" =
      Except.error { messages := [{ path := "image", message := "Imagen inválida." }] } ∧
    (updatePromotionPictureRoute "img7" "raw").2 = Except.ok { id := "img7" } :=
  ⟨(image_attach_validation_iff_empty "" "raw").2.1 rfl,
   ((image_attach_validation_iff_empty "img7" "raw").2.2 (by decide)).2⟩

/-- C7: in every image-attach invocation the raw body is sent to the image
store strictly before the identifier is validated (also when validation then
fails), and the handler's trace contains no promotion-persistence call. -/
theorem image_attach_order_and_no_persistence :
    ∀ (imageStoreId body : String),
      (updatePromotionPictureRoute imageStoreId body).1 =
        [Event.imageStoreCreate body, Event.validateImageId imageStoreId] ∧
      (∀ e ∈ (updatePromotionPictureRoute imageStoreId body).1,
        isMutationEvent e = false) ∧
      (∀ m, validateUpdatePromotionPicture imageStoreId = Except.error m →
        (updatePromotionPictureRoute imageStoreId body).1.get? 0 =
          some (Event.imageStoreCreate body) ∧
        (updatePromotionPictureRoute imageStoreId body).2 =
          Except.error (RouteErr.validationError m.messages)) := by
  intro sid body
  refine ⟨rfl, ?_, ?_⟩
  · intro e he
    simp [updatePromotionPictureRoute] at he
    rcases he with he | he <;> subst he <;> rfl
  · intro m hm
    refine ⟨rfl, ?_⟩
    simp [updatePromotionPictureRoute, hm]

/-- Witness for C7: with the image store returning `""`, the image-store call
is still first in the trace and the route fails with the validation report. -/
theorem image_attach_order_and_no_persistence_witness :
    (updatePromotionPictureRoute "" "raw").1.get? 0 =
      some (Event.imageStoreCreate "raw") ∧
    (updatePromotionPictureRoute "" "raw").2 =
      Except.error (RouteErr.validationError
        [{ path := "image", message := "Imagen inválida." }]) :=
  (image_attach_order_and_no_persistence "" "raw").2.2
    { messages := [{ path := "image", message := "Imagen inválida." }] } rfl

/-- C10: any identifier of positive length — including whitespace-only
strings such as `" "` — passes the image-attach validation and is returned
unchanged in the `{id}` response. -/
theorem image_attach_accepts_any_nonempty :
    ∀ (imageId body : String), 0 < imageId.length →
      validateUpdatePromotionPicture imageId = Except.ok () ∧
      (updatePromotionPictureRoute imageId body).2 = Except.ok { id := imageId } := by
  intro s body h
  refine ⟨validateUpdatePromotionPicture_nonempty s h, ?_⟩
  simp [updatePromotionPictureRoute, validateUpdatePromotionPicture_nonempty s h]

/-- Witness for C10 at the whitespace-only identifier `" "`. -/
theorem image_attach_accepts_any_nonempty_witness :
    validateUpdatePromotionPicture " " = Except.ok () ∧
    (updatePromotionPictureRoute " " "raw").2 = Except.ok { id := " " } :=
  image_attach_accepts_any_nonempty " " "raw" (by decide)

/-- C3: every document accepted for persistence by `PublicitySchema` has
non-empty (post-trim) `title`, `description`, `redirectLink`, `imageId` and a
present `owner`; a document missing any of them is rejected with a non-empty
validation report and never persisted. -/
theorem persisted_promotion_fields_nonempty :
    ∀ (input : PublicityInput) (d : PublicityDoc),
      (publicitySave input = Except.ok d →
        0 < d.title.length ∧ 0 < d.description.length ∧
        0 < d.redirectLink.length ∧ 0 < d.imageId.length ∧
        d.owner.isSome = true) ∧
      (((buildPublicityDoc input).title.length = 0 ∨
        (buildPublicityDoc input).description.length = 0 ∨
        (buildPublicityDoc input).redirectLink.length = 0 ∨
        (buildPublicityDoc input).imageId.length = 0 ∨
        (buildPublicityDoc input).owner = none) →
        ∃ errs, publicitySave input = Except.error errs ∧ errs ≠ []) := by
  intro input d
  constructor
  · intro h
    obtain ⟨hd, hnil⟩ := publicitySave_ok input d h
    subst hd
    exact (publicityValidationErrors_eq_nil _).mp hnil
  · intro h
    have hne : publicityValidationErrors (buildPublicityDoc input) ≠ [] := by
      intro he
      obtain ⟨h1, h2, h3, h4, h5⟩ := (publicityValidationErrors_eq_nil _).mp he
      rcases h with h | h | h | h | h
      · omega
      · omega
      · omega
      · omega
      · rw [h] at h5
        cases h5
    refine ⟨publicityValidationErrors (buildPublicityDoc input), ?_, hne⟩
    simp only [publicitySave]
    rw [if_neg hne]

/-- A schema input with all required fields supplied. -/
def goodInput : PublicityInput :=
  { title := some "Dia del Padre"
    description := some "Comprale a tu papa lo que siempre ha querido!"
    redirectLink := some "http://x"
    imageId := some "img1"
    owner := some "user1"
    enabled := none }

/-- The document `PublicitySchema` persists for `goodInput`. -/
def goodDoc : PublicityDoc :=
  { title := "Dia del Padre"
    description := "Comprale a tu papa lo que siempre ha querido!"
    redirectLink := "http://x"
    imageId := "img1"
    owner := some "user1"
    enabled := true }

/-- Witness for C3: the accepted concrete document has all required fields
non-empty. -/
theorem persisted_promotion_fields_nonempty_witness :
    0 < goodDoc.title.length ∧ 0 < goodDoc.description.length ∧
    0 < goodDoc.redirectLink.length ∧ 0 < goodDoc.imageId.length ∧
    goodDoc.owner.isSome = true :=
  (persisted_promotion_fields_nonempty goodInput goodDoc).1 (by decide)

/-- C9: every persisted string field equals the JS-trim of its input and
carries no leading or trailing whitespace. -/
theorem persisted_strings_trimmed :
    ∀ (input : PublicityInput) (d : PublicityDoc),
      publicitySave input = Except.ok d →
        (d.title = jsTrim (input.title.getD "") ∧ noEdgeWhitespace d.title) ∧
        (d.description = jsTrim (input.description.getD "") ∧
          noEdgeWhitespace d.description) ∧
        (d.redirectLink = jsTrim (input.redirectLink.getD "") ∧
          noEdgeWhitespace d.redirectLink) ∧
        (d.imageId = jsTrim (input.imageId.getD "") ∧ noEdgeWhitespace d.imageId) := by
  intro input d h
  obtain ⟨hd, _⟩ := publicitySave_ok input d h
  subst hd
  have happ : ∀ v : Option String, applyStringPath v = jsTrim (v.getD "") := by
    intro v
    cases v with
    | none => rfl
    | some s => rfl
  have hedge : ∀ v : Option String, noEdgeWhitespace (applyStringPath v) := by
    intro v
    rw [happ v]
    exact jsTrim_noEdgeWhitespace _
  exact ⟨⟨happ input.title, hedge input.title⟩,
         ⟨happ input.description, hedge input.description⟩,
         ⟨happ input.redirectLink, hedge input.redirectLink⟩,
         ⟨happ input.imageId, hedge input.imageId⟩⟩

/-- Witness for C9 at a concrete accepted input. -/
theorem persisted_strings_trimmed_witness :
    (goodDoc.title = jsTrim (goodInput.title.getD "") ∧
      noEdgeWhitespace goodDoc.title) ∧
    (goodDoc.description = jsTrim (goodInput.description.getD "") ∧
      noEdgeWhitespace goodDoc.description) ∧
    (goodDoc.redirectLink = jsTrim (goodInput.redirectLink.getD "") ∧
      noEdgeWhitespace goodDoc.redirectLink) ∧
    (goodDoc.imageId = jsTrim (goodInput.imageId.getD "") ∧
      noEdgeWhitespace goodDoc.imageId) :=
  persisted_strings_trimmed goodInput goodDoc (by decide)

/-- C4: `list()` never includes a promotion with `enabled=false`, and returns
exactly the promotions with `enabled=true`. -/
theorem list_returns_exactly_enabled :
    ∀ (store : List StoredPromotion) (p : StoredPromotion),
      (p.enabled = false → p ∉ serviceList store) ∧
      (p ∈ serviceList store ↔ p ∈ store ∧ p.enabled = true) := by
  intro store p
  have hmem : p ∈ serviceList store ↔ p ∈ store ∧ p.enabled = true := by
    simp [serviceList, List.mem_filter]
  refine ⟨?_, hmem⟩
  intro hp hm
  have := (hmem.mp hm).2
  rw [hp] at this
  cases this

/-- A disabled promotion record. -/
def promoOff : StoredPromotion :=
  { id := "p1", title := "t1", description := "d1", redirectLink := "r1",
    imageId := "i1", owner := "u1", enabled := false }

/-- An enabled promotion record. -/
def promoOn : StoredPromotion :=
  { id := "p2", title := "t2", description := "d2", redirectLink := "r2",
    imageId := "i2", owner := "u2", enabled := true }

/-- Witness for C4: the disabled record is excluded from a concrete listing. -/
theorem list_returns_exactly_enabled_witness :
    promoOff ∉ serviceList [promoOff, promoOn] :=
  (list_returns_exactly_enabled [promoOff, promoOn] promoOff).1 rfl

/-- C5: every element of the list response is exactly the five-field
projection of a store record, and the projection ignores `owner` and
`enabled` (they never influence, and so never appear in, the response). -/
theorem list_response_projection_exact :
    ∀ (svcResult : List StoredPromotion),
      (∀ x ∈ (listRoute svcResult).2, ∃ item ∈ svcResult,
        x = { id := item.id, title := item.title, description := item.description,
              redirectLink := item.redirectLink, imageId := item.imageId }) ∧
      (∀ (item : StoredPromotion) (o : String) (e : Bool),
        listProjection { item with owner := o, enabled := e } = listProjection item) := by
  intro svcResult
  constructor
  · intro x hx
    simp only [listRoute, List.mem_map] at hx
    obtain ⟨item, hi, he⟩ := hx
    exact ⟨item, hi, he.symm⟩
  · intro item o e
    rfl

/-- Witness for C5: the single response element of a concrete listing is the
five-field projection of the stored record. -/
theorem list_response_projection_exact_witness :
    ∃ item ∈ [promoOn],
      listProjection promoOn =
        { id := item.id, title := item.title, description := item.description,
          redirectLink := item.redirectLink, imageId := item.imageId } :=
  (list_response_projection_exact [promoOn]).1 (listProjection promoOn)
    (by simp [listRoute])

/-- C6: the GET-by-id route is registered without the `onlyLoggedIn`
middleware, its handler performs no permission check, and a found record is
answered with the five exposed fields — for any caller. -/
theorem read_requires_no_permission :
    (("/v1/promotion/:promotionId", "get", [RouteStep.handler "read"]) ∈ promotionRoutes ∧
      (∀ steps, ("/v1/promotion/:promotionId", "get", steps) ∈ promotionRoutes →
        RouteStep.onlyLoggedIn ∉ steps)) ∧
    (∀ (svc : Except RouteErr StoredPromotion) (promotionId : String),
      (∀ e ∈ (readRoute svc promotionId).1, ∀ u r, e ≠ Event.permissionCheck u r) ∧
      (∀ rec, svc = Except.ok rec →
        (readRoute svc promotionId).2 = Except.ok
          { id := rec.id, title := rec.title, description := rec.description,
            redirectLink := rec.redirectLink, imageId := rec.imageId })) := by
  constructor
  · constructor
    · decide
    · intro steps hs
      simp only [promotionRoutes, List.mem_cons, List.not_mem_nil, or_false,
        Prod.mk.injEq] at hs
      rcases hs with hs | hs | hs | hs | hs
      · exact absurd hs.1 (by decide)
      · exact absurd hs.2.1 (by decide)
      · rw [hs.2.2]
        decide
      · exact absurd hs.2.1 (by decide)
      · exact absurd hs.1 (by decide)
  · intro svc promotionId
    constructor
    · intro e he u r
      simp only [readRoute, List.mem_cons, List.not_mem_nil, or_false] at he
      subst he
      intro hcontra
      cases hcontra
    · intro rec hrec
      subst hrec
      rfl

/-- Witness for C6: the read chain of the routing table has no login
middleware, and a concrete found record is served projected. -/
theorem read_requires_no_permission_witness :
    RouteStep.onlyLoggedIn ∉ [RouteStep.handler "read"] ∧
    (readRoute (Except.ok promoOn) "p2").2 = Except.ok
      { id := promoOn.id, title := promoOn.title,
        description := promoOn.description,
        redirectLink := promoOn.redirectLink, imageId := promoOn.imageId } :=
  ⟨read_requires_no_permission.1.2 [RouteStep.handler "read"] (by decide),
   (read_requires_no_permission.2 (Except.ok promoOn) "p2").2 promoOn rfl⟩

/-- The C8 scenario input: `title`, `description` and `redirectLink` supplied,
no `imageId`. -/
def c8Body : PublicityInput :=
  { title := some "Dia del Padre"
    description := some "Comprale a tu papa lo que siempre ha querido!"
    redirectLink := some "http://x"
    imageId := none
    owner := none
    enabled := none }

/-- C8 counterexample: the scenario's admin create with no `imageId` does not
succeed — `PublicitySchema` gives `imageId` the default `""`, which fails its
`required` validator, so the save is rejected instead of returning an id. -/
theorem create_without_image_rejected_cex :
    serviceCreate "adminUser" c8Body =
      Except.error [{ path := "imageId",
                      message := "Toda publicidad debe tener una image que la represente." }] := by
  decide

/-- C8 amended: a create whose input supplies non-empty (post-trim) `title`,
`description` and `redirectLink` but no `imageId` is rejected by the schema
with exactly the `imageId` required-validator entry; no record is persisted. -/
theorem create_without_image_rejected :
    ∀ (uid t d r : String) (e : Option Bool),
      0 < (jsTrim t).length → 0 < (jsTrim d).length → 0 < (jsTrim r).length →
      serviceCreate uid
        { title := some t, description := some d, redirectLink := some r,
          imageId := none, owner := none, enabled := e } =
        Except.error [{ path := "imageId",
                        message := "Toda publicidad debe tener una image que la represente." }] := by
  intro uid t d r e ht hd hr
  have h0 : ("" : String).length = 0 := rfl
  have herr : publicityValidationErrors (buildPublicityDoc
      { title := some t, description := some d, redirectLink := some r,
        imageId := none, owner := some uid, enabled := e }) =
      [{ path := "imageId",
         message := "Toda publicidad debe tener una image que la represente." }] := by
    simp [buildPublicityDoc, publicityValidationErrors, applyStringPath, ht, hd, hr, h0]
  have hne : publicityValidationErrors (buildPublicityDoc
      { title := some t, description := some d, redirectLink := some r,
        imageId := none, owner := some uid, enabled := e }) ≠ [] := by
    rw [herr]
    intro hcontra
    cases hcontra
  show publicitySave
      { title := some t, description := some d, redirectLink := some r,
        imageId := none, owner := some uid, enabled := e } = _
  simp only [publicitySave]
  rw [if_neg hne, herr]

/-- Witness for the amended C8 at concrete field values. -/
theorem create_without_image_rejected_witness :
    serviceCreate "u1"
      { title := some "T", description := some "D", redirectLink := some "R",
        imageId := none, owner := none, enabled := none } =
      Except.error [{ path := "imageId",
                      message := "Toda publicidad debe tener una image que la represente." }] :=
  create_without_image_rejected "u1" "T" "D" "R" none
    (by decide) (by decide) (by decide)
